import Mathlib

/-
  Verification development for the machship-middleware repository.

  Shallow embedding of the gateway client, session handling, payload
  mapping and route selection implemented in:
    - src/server.js                       (single-strategy HTTP variant)
    - src/unnamed/part_000 ("negotiator") (multi-strategy auth variant)
    - src/unnamed/part_001 ("single")     (compact variant)

  JavaScript values that matter to the control flow are modelled
  explicitly: `Option` stands for possibly-absent JSON fields, and JS
  truthiness of strings/ints is `s ≠ ""` / `n ≠ 0`.  Machine floats do
  not occur in any decision modelled here except route costs, which are
  embedded as rationals.
-/

namespace MachshipMW

/-- Model of a JSON value as far as the middleware inspects one:
`forklift_available` may arrive absent, boolean, string or numeric. -/
inductive JSVal where
| undef : JSVal
| bool : Bool → JSVal
| str : String → JSVal
| num : Int → JSVal
deriving DecidableEq

/-- JS truthiness for the modelled values. -/
def jsTruthy : JSVal → Bool
| .undef => false
| .bool b => b
| .str s => !(s == "")
| .num n => !(n == 0)

/-- JS `a || d` for possibly-absent string fields: the default is taken
when the field is absent or the empty string (falsy). -/
def jsOr : Option String → String → String
| some s, d => if s = "" then d else s
| none, d => d

/-- JS `a || d` for possibly-absent numeric fields: the default is taken
when the field is absent or `0` (falsy). -/
def jsOrNum : Option Int → Int → Int
| some n, d => if n = 0 then d else n
| none, d => d

/-- An incoming item of a quote/consignment body (all fields optional),
from the destructuring in the three handlers. -/
structure InputItem where
  quantity : Option Int
  length : Option Int
  width : Option Int
  height : Option Int
  weight : Option Int
  description : Option String
  name : Option String
  sku : Option String
deriving DecidableEq

/-- An outbound quote line item, `machshipRequest.items` element
(src/server.js lines 103-110). -/
structure QuoteItem where
  quantity : Int
  length : Int
  width : Int
  height : Int
  weight : Int
  itemDescription : String
deriving DecidableEq

/-- An outbound consignment line item, additionally carrying
`itemReference` (src/server.js lines 255-263). -/
structure ConsItem where
  quantity : Int
  length : Int
  width : Int
  height : Int
  weight : Int
  itemDescription : String
  itemReference : String
deriving DecidableEq

/-- Item mapping of the quote endpoint in src/server.js and
src/unnamed/part_000: every dimensional field defaulted via `||`,
description falling back to `item.name`, then `"Battery"`. -/
def mapQuoteItem (it : InputItem) : QuoteItem :=
  { quantity := jsOrNum it.quantity 1
    length := jsOrNum it.length 100
    width := jsOrNum it.width 50
    height := jsOrNum it.height 30
    weight := jsOrNum it.weight 25
    itemDescription := jsOr it.description (jsOr it.name "Battery") }

/-- Item mapping of the consignment endpoint in src/server.js and
src/unnamed/part_000 (adds `itemReference := item.sku || ""`). -/
def mapConsItem (it : InputItem) : ConsItem :=
  { quantity := jsOrNum it.quantity 1
    length := jsOrNum it.length 100
    width := jsOrNum it.width 50
    height := jsOrNum it.height 30
    weight := jsOrNum it.weight 25
    itemDescription := jsOr it.description (jsOr it.name "Battery")
    itemReference := jsOr it.sku "" }

/-- Item mapping of the quote endpoint in src/unnamed/part_001
(lines 76-83): `itemDescription: item.description || 'Battery'` with no
`item.name` fallback. -/
def mapQuoteItemAlt (it : InputItem) : QuoteItem :=
  { quantity := jsOrNum it.quantity 1
    length := jsOrNum it.length 100
    width := jsOrNum it.width 50
    height := jsOrNum it.height 30
    weight := jsOrNum it.weight 25
    itemDescription := jsOr it.description "Battery" }

/-- An outbound consignment line item of the webhook endpoint in
src/unnamed/part_001: `quantity` and `itemDescription` are copied
verbatim from the order's line item and so may be absent. -/
structure WebhookConsItem where
  quantity : Option Int
  length : Int
  width : Int
  height : Int
  weight : Int
  itemDescription : Option String
deriving DecidableEq

/-- Item mapping of the webhook consignment endpoint in
src/unnamed/part_001 (lines 138-142): `quantity: item.quantity` is
copied verbatim with NO default, the four dimensional fields are
hard-coded to the fallback constants 100/50/30/25 regardless of any
supplied dimensions, and `itemDescription: item.name` is copied
verbatim. -/
def mapWebhookConsItemAlt (it : InputItem) : WebhookConsItem :=
  { quantity := it.quantity
    length := 100
    width := 50
    height := 30
    weight := 25
    itemDescription := it.name }

/-- Stated from the spec wording, for refinement comparison only: the
item description is the item's description when present, otherwise the
item's name when present, otherwise the literal `"Battery"`. -/
def claimedDescription (it : InputItem) : String :=
  match it.description with
  | some s =>
    if s = "" then
      match it.name with
      | some n => if n = "" then "Battery" else n
      | none => "Battery"
    else s
  | none =>
    match it.name with
    | some n => if n = "" then "Battery" else n
    | none => "Battery"

/-- Destination address as destructured from a request body: every
field may be absent. -/
structure DestAddr where
  name : Option String
  company : Option String
  street : Option String
  suburb : Option String
  state : Option String
  postcode : Option String
  country : Option String
  phone : Option String
  email : Option String
deriving DecidableEq

/-- Outbound `toLocation` / `fromLocation` shape.  The required fields
street/suburb/state/postcode are copied verbatim from the caller and so
can still be absent in the outbound payload. -/
structure Location where
  contactName : String
  companyName : String
  street : Option String
  suburb : Option String
  state : Option String
  postcode : Option String
  country : String
  phone : String
  email : String
deriving DecidableEq

/-- `toLocation` construction of the quote endpoint
(src/server.js lines 91-101). -/
def mapDestAddrQuote (d : DestAddr) : Location :=
  { contactName := jsOr d.name "Customer"
    companyName := jsOr d.company ""
    street := d.street
    suburb := d.suburb
    state := d.state
    postcode := d.postcode
    country := jsOr d.country "AU"
    phone := jsOr d.phone ""
    email := jsOr d.email "" }

/-- `toLocation` construction of the consignment endpoint
(src/server.js lines 243-253): email prefers `customer_email`. -/
def mapDestAddrCons (d : DestAddr) (customer_email : Option String) : Location :=
  { contactName := jsOr d.name "Customer"
    companyName := jsOr d.company ""
    street := d.street
    suburb := d.suburb
    state := d.state
    postcode := d.postcode
    country := jsOr d.country "AU"
    phone := jsOr d.phone ""
    email := jsOr customer_email (jsOr d.email "") }

/-- `tailLiftRequired: forklift_available === false || forklift_available === 'no'`
(src/server.js lines 113 and 266). -/
def tailLift (v : JSVal) : Bool :=
  (v == JSVal.bool false) || (v == JSVal.str "no")

/-- Outbound quote request body (src/server.js lines 76-114). -/
structure QuoteRequest where
  companyId : Int
  fromLocation : Location
  toLocation : Location
  items : List QuoteItem
  dangerousGoods : Bool
  tailLiftRequired : Bool
deriving DecidableEq

/-- Outbound consignment request body (src/server.js lines 228-270). -/
structure ConsignmentRequest where
  companyId : Int
  fromLocation : Location
  toLocation : Location
  items : List ConsItem
  dangerousGoods : Bool
  tailLiftRequired : Bool
  customerReference : String
  orderNumber : String
deriving DecidableEq

/-- Body of POST /api/get-shipping-quote as destructured by the handler. -/
structure QuoteBody where
  destination_address : Option DestAddr
  items : Option (List InputItem)
  forklift_available : JSVal
deriving DecidableEq

/-- Body of POST /api/create-consignment as destructured by the handler. -/
structure ConsignmentBody where
  order_number : Option String
  destination_address : Option DestAddr
  items : Option (List InputItem)
  forklift_available : JSVal
  customer_email : Option String
deriving DecidableEq

/-- The quote handler up to the outbound network call
(src/server.js lines 52-129): validation
`!destination_address || !items || items.length === 0` rejects with a
400, otherwise the outbound MachShip request is built and sent.
`.ok` = the network call is issued with that payload; `.error` = the
handler returns the client error before any network call. -/
def getShippingQuote (companyId : Int) (warehouse : Location) (b : QuoteBody) :
    Except String QuoteRequest :=
  match b with
  | ⟨some d, some its, fa⟩ =>
    if its.length = 0 then
      .error "Missing required fields: destination_address and items"
    else
      .ok { companyId := companyId
            fromLocation := warehouse
            toLocation := mapDestAddrQuote d
            items := its.map mapQuoteItem
            dangerousGoods := true
            tailLiftRequired := tailLift fa }
  | _ => .error "Missing required fields: destination_address and items"

/-- The consignment handler up to the outbound network call
(src/server.js lines 203-284): validation
`!order_number || !destination_address || !items` (note: no emptiness
check on `items`), then the outbound consignment request is built. -/
def createConsignment (companyId : Int) (warehouse : Location) (b : ConsignmentBody) :
    Except String ConsignmentRequest :=
  match b with
  | ⟨some onum, some d, some its, fa, ce⟩ =>
    if onum = "" then .error "Missing required fields"
    else
      .ok { companyId := companyId
            fromLocation := warehouse
            toLocation := mapDestAddrCons d ce
            items := its.map mapConsItem
            dangerousGoods := true
            tailLiftRequired := tailLift fa
            customerReference := onum
            orderNumber := onum }
  | _ => .error "Missing required fields"

/-- Whether the handler reached the outbound carrier call. -/
def makesNetworkCall {α : Type} : Except String α → Bool
| .ok _ => true
| .error _ => false

/-- A carrier route quote; `totalCost` embedded as a rational. -/
structure RouteQuote where
  carrierName : String
  serviceName : String
  totalCost : ℚ
  totalTransitDays : Int
  routeId : String
deriving DecidableEq

/-- `routes.reduce((prev, current) => (current.totalCost < prev.totalCost) ? current : prev)`
(src/server.js lines 154-156): JS `reduce` without an initial value
seeds with the first element and scans the rest. -/
def reduceCheapest (first : RouteQuote) (rest : List RouteQuote) : RouteQuote :=
  rest.foldl (fun prev curr => if curr.totalCost < prev.totalCost then curr else prev) first

/-- Route selection of the quote handler (src/server.js lines 146-156):
an empty route list is answered with the 404 "no routes" error before
the reduce runs; otherwise the reduce picks the cheapest route. -/
def cheapestRoute : List RouteQuote → Except String RouteQuote
| [] => .error "No shipping routes available for this destination"
| r :: rs => .ok (reduceCheapest r rs)

/-- The module-level session slot of src/unnamed/part_000
(`sessionCookie`, `sessionExpiry`), both `null` at start. -/
structure SessionState where
  cookie : Option String
  expiry : Option Nat
deriving DecidableEq

/-- `cookie.split(';')[0]`: the name=value segment before the first
`;` (the whole string when there is none). -/
def cookieNameValue (c : String) : String :=
  String.mk (c.data.takeWhile (fun ch => !(ch == ';')))

/-- `cookies.map(cookie => cookie.split(';')[0]).join('; ')`
(src/unnamed/part_000 line 62). -/
def joinCookies : List String → String
| [] => ""
| [c] => cookieNameValue c
| c :: c2 :: rest => cookieNameValue c ++ "; " ++ joinCookies (c2 :: rest)

/-- `30 * 60 * 1000` milliseconds (src/unnamed/part_000 line 63). -/
def sessionTTL : Nat := 30 * 60 * 1000

/-- The session-storing fragment of `loginToMachShip`
(src/unnamed/part_000 lines 59-69): given the `set-cookie` response
header (absent, or a list of cookie strings) and the current time, it
stores the joined name=value segments with a 30-minute expiry and
reports `true`; otherwise it leaves the slot alone and reports `false`. -/
def loginStoreSession (setCookie : Option (List String)) (now : Nat)
    (s : SessionState) : SessionState × Bool :=
  match setCookie with
  | some cs =>
    if 0 < cs.length then
      (⟨some (joinCookies cs), some (now + sessionTTL)⟩, true)
    else (s, false)
  | none => (s, false)

/-- An HTTP response as far as `callMachShip` inspects one: status,
body (stringified, `""` when empty/falsy) and the optional
`set-cookie` header list. -/
structure HttpResponse where
  status : Nat
  body : String
  setCookie : Option (List String)
deriving DecidableEq

/-- The outcome the network produces for one authentication strategy:
either a response (axios resolves iff its status is < 500 because of
`validateStatus: (status) => status < 500`), or a transport failure. -/
inductive AttemptResult where
| response : HttpResponse → AttemptResult
| netError : String → AttemptResult
deriving DecidableEq

/-- The error `callMachShip` ends with when no strategy is accepted:
the axios error of a status >= 500 response (carrying status and body),
a transport error (message only), or the fresh
`Error('All authentication methods failed')` carrying neither. -/
inductive CallError where
| fromResponse : Nat → String → CallError
| fromTransport : String → CallError
| allFailed : CallError
deriving DecidableEq

/-- Substring test on character lists, as JS `String.includes`. -/
def containsChars (pat : List Char) : List Char → Bool
| [] => pat.isPrefixOf []
| c :: rest => pat.isPrefixOf (c :: rest) || containsChars pat rest

/-- JS `haystack.includes(pat)`. -/
def containsStr (pat s : String) : Bool := containsChars pat.data s.data

/-- The acceptance test of src/unnamed/part_000 line 144:
`response.status === 200 && response.data && !String(response.data).includes('Session ID')`. -/
def acceptResponse (r : HttpResponse) : Bool :=
  r.status == 200 && !(r.body == "") && !(containsStr "Session ID" r.body)

/-- Whether one strategy attempt is accepted by the loop. -/
def isAccepted : AttemptResult → Bool
| .response r => acceptResponse r
| .netError _ => false

/-- What an attempt leaves in `lastError`: status >= 500 responses make
axios throw an error carrying the response; transport failures throw
with a message only; resolved responses (status < 500) throw nothing. -/
def attemptThrow : AttemptResult → Option CallError
| .response r => if 500 ≤ r.status then some (.fromResponse r.status r.body) else none
| .netError m => some (.fromTransport m)

/-- The strategy loop of `callMachShip` (src/unnamed/part_000 lines
132-162), over the per-strategy outcomes in priority order, threading
the `lastError` accumulator.  A rejected status < 500 response logs and
continues WITHOUT touching `lastError`; at exhaustion the code throws
`lastError || new Error('All authentication methods failed')`. -/
def callLoop : List AttemptResult → Option CallError → Except CallError HttpResponse
| [], lastError => .error (lastError.getD .allFailed)
| .response r :: rest, lastError =>
  if 500 ≤ r.status then callLoop rest (some (.fromResponse r.status r.body))
  else if acceptResponse r then .ok r
  else callLoop rest lastError
| .netError m :: rest, _lastError => callLoop rest (some (.fromTransport m))

/-- `callMachShip` of src/unnamed/part_000, abstracted over the network:
`attempts` lists what each authentication strategy would get back, in
the fixed priority order of `authStrategies`. -/
def callMachShip (attempts : List AttemptResult) : Except CallError HttpResponse :=
  callLoop attempts none

/-- `callMachShip` together with the module session slot: the source
function never reads or assigns `sessionCookie`/`sessionExpiry`
(src/unnamed/part_000 lines 90-162 contain no reference to them), so
the state passes through unchanged. -/
def callMachShipSession (attempts : List AttemptResult) (s : SessionState) :
    Except CallError HttpResponse × SessionState :=
  (callMachShip attempts, s)

/-- The final `lastError` after the whole loop ran without acceptance:
the throw of the last attempt that threw, if any. -/
def lastThrown : List AttemptResult → Option CallError
| [] => none
| a :: rest =>
  match lastThrown rest with
  | some e => some e
  | none => attemptThrow a

/-- Helper describing `callLoop`'s exhaustion value given the incoming
accumulator. -/
def mergeLast : Option CallError → Option CallError → CallError
| some e, _ => e
| none, last => last.getD .allFailed

/-- JS `\s` for the ASCII whitespace characters (the only ones relevant
to API tokens). -/
def jsWhitespace (c : Char) : Bool :=
  c == ' ' || c == '\t' || c == '\n' || c == '\r' || c == '\x0b' || c == '\x0c'

/-- JS `String.trim` on the modelled whitespace set. -/
def trimChars (l : List Char) : List Char :=
  ((l.dropWhile jsWhitespace).reverse.dropWhile jsWhitespace).reverse

/-- Case-insensitive match of one character of the word "bearer". -/
def charCI (c lo hi : Char) : Bool := c == lo || c == hi

/-- Whether six characters spell "bearer" case-insensitively. -/
def isBearerWord (c1 c2 c3 c4 c5 c6 : Char) : Bool :=
  charCI c1 'b' 'B' && charCI c2 'e' 'E' && charCI c3 'a' 'A' &&
  charCI c4 'r' 'R' && charCI c5 'e' 'E' && charCI c6 'r' 'R'

/-- `replace(/^Bearer\s+/i, '')`: drop one leading case-insensitive
"Bearer" followed by a maximal nonempty whitespace run; anything else
is left alone (the regex is anchored and replaces at most once). -/
def stripBearerRegex : List Char → List Char
| c1 :: c2 :: c3 :: c4 :: c5 :: c6 :: rest =>
  if isBearerWord c1 c2 c3 c4 c5 c6 then
    match rest with
    | c :: cs =>
      if jsWhitespace c then cs.dropWhile jsWhitespace
      else c1 :: c2 :: c3 :: c4 :: c5 :: c6 :: c :: cs
    | [] => c1 :: c2 :: c3 :: c4 :: c5 :: c6 :: []
  else c1 :: c2 :: c3 :: c4 :: c5 :: c6 :: rest
| l => l

/-- `(MACHSHIP_API_TOKEN || '').trim().replace(/^Bearer\s+/i, '')`
(src/unnamed/part_000 lines 39 and 92). -/
def cleanTokenNegotiator (raw : String) : String :=
  String.mk (stripBearerRegex (trimChars raw.data))

/-- JS `s.replace(pat, '')` with a string pattern: removes the first
occurrence of `pat`, if any. -/
def removeFirstOccurrence (pat : List Char) : List Char → List Char
| [] => []
| c :: rest =>
  if pat.isPrefixOf (c :: rest) then List.drop pat.length (c :: rest)
  else c :: removeFirstOccurrence pat rest

/-- `MACHSHIP_API_TOKEN.replace('Bearer ', '')`
(src/unnamed/part_001 line 36): case-sensitive, first occurrence only. -/
def cleanTokenSingle (raw : String) : String :=
  String.mk (removeFirstOccurrence "Bearer ".data raw.data)

/-- One named authentication strategy with its header set. -/
structure AuthStrategy where
  name : String
  headers : List (String × String)
deriving DecidableEq

/-- The fixed, ordered strategy list of src/unnamed/part_000
lines 97-130, built over the cleaned token. -/
def authStrategies (cleanToken : String) : List AuthStrategy :=
  [ ⟨"Bearer Token",
      [("Authorization", "Bearer " ++ cleanToken),
       ("Content-Type", "application/json"),
       ("Accept", "application/json")]⟩,
    ⟨"X-API-Key",
      [("X-API-Key", cleanToken),
       ("Content-Type", "application/json"),
       ("Accept", "application/json")]⟩,
    ⟨"api-key",
      [("api-key", cleanToken),
       ("Content-Type", "application/json"),
       ("Accept", "application/json")]⟩,
    ⟨"Authorization Token",
      [("Authorization", "Token " ++ cleanToken),
       ("Content-Type", "application/json"),
       ("Accept", "application/json")]⟩ ]

/-- A Zoho order custom field as inspected by the webhook handler. -/
structure CustomField where
  customfield_id : String
  value : String
deriving DecidableEq

/-- The fixed forklift custom-field identifier
(src/server.js line 333). -/
def forkliftFieldId : String := "171656000002394353"

/-- Forklift extraction of the webhook handler (src/server.js lines
330-338): default `false`; when the custom-field list is present and
nonempty, find the fixed id and compare its value to `'yes'`. -/
def extractForkliftAvailable (custom_fields : Option (List CustomField)) : Bool :=
  match custom_fields with
  | some fields =>
    if 0 < fields.length then
      match fields.find? (fun f => f.customfield_id == forkliftFieldId) with
      | some f => f.value == "yes"
      | none => false
    else false
  | none => false

/-- Concrete item used to instantiate the item-mapping theorems. -/
def sampleItem : InputItem :=
  ⟨some 2, none, some 0, some 7, none, none, none, none⟩

/- ===================== theorems ===================== -/

/-- Exhaustion behaviour of the strategy loop: when no attempt is
accepted, the loop ends with the last thrown error, falling back to the
incoming accumulator and then to the generic failure. -/
theorem callLoop_no_accept (attempts : List AttemptResult) :
    ∀ last : Option CallError, (∀ a ∈ attempts, isAccepted a = false) →
    callLoop attempts last = .error (mergeLast (lastThrown attempts) last) := by
  induction attempts with
  | nil =>
    intro last h
    simp [callLoop, lastThrown, mergeLast]
  | cons a rest ih =>
    intro last h
    have ha : isAccepted a = false := h a (by simp)
    have hrest : ∀ x ∈ rest, isAccepted x = false := fun x hx => h x (by simp [hx])
    cases a with
    | netError m =>
      rw [show callLoop (AttemptResult.netError m :: rest) last
            = callLoop rest (some (.fromTransport m)) from rfl]
      rw [ih _ hrest]
      cases hlt : lastThrown rest <;>
        simp [lastThrown, attemptThrow, mergeLast, hlt]
    | response r =>
      by_cases h5 : 500 ≤ r.status
      · rw [show callLoop (AttemptResult.response r :: rest) last
              = if 500 ≤ r.status then callLoop rest (some (.fromResponse r.status r.body))
                else if acceptResponse r then .ok r else callLoop rest last from rfl]
        rw [if_pos h5, ih _ hrest]
        cases hlt : lastThrown rest <;>
          simp [lastThrown, attemptThrow, mergeLast, hlt, h5]
      · have hacc : acceptResponse r = false := by simpa [isAccepted] using ha
        rw [show callLoop (AttemptResult.response r :: rest) last
              = if 500 ≤ r.status then callLoop rest (some (.fromResponse r.status r.body))
                else if acceptResponse r then .ok r else callLoop rest last from rfl]
        rw [if_neg h5, hacc, if_neg (by simp), ih _ hrest]
        cases hlt : lastThrown rest <;>
          simp [lastThrown, attemptThrow, mergeLast, hlt, h5]

/-- Claim C1 (amended): if no authentication strategy is accepted,
`callMachShip` fails with the error of the LAST attempt that threw — a
status >= 500 response (whose status and body the error carries) or a
transport failure — and when every attempt completed with a
non-accepted response of status < 500 (so nothing ever threw), it fails
with the generic `Error('All authentication methods failed')`, which
carries no status or body. -/
theorem claim_C1_amended (attempts : List AttemptResult)
    (h : ∀ a ∈ attempts, isAccepted a = false) :
    callMachShip attempts = .error (Option.getD (lastThrown attempts) .allFailed) := by
  rw [callMachShip, callLoop_no_accept attempts none h]
  cases hlt : lastThrown attempts <;> simp [mergeLast, hlt]

/-- Witness for C1: a 503 followed by a 401 ends with the 503's
gateway error, which does carry that response's status and body. -/
theorem claim_C1_witness :
    callMachShip [.response ⟨503, "oops", none⟩, .response ⟨401, "denied", none⟩]
      = .error (.fromResponse 503 "oops") := by
  rw [claim_C1_amended _ (by decide)]
  rfl

/-- Counterexample to C1 as stated: four strategies all answered with a
401 rejection leave `lastError` null, so the code throws the generic
error, NOT a gateway error carrying the last observed status 401 and
body — contrary to the claim. -/
theorem claim_C1_cex :
    callMachShip [.response ⟨401, "Unauthorized", none⟩, .response ⟨401, "Unauthorized", none⟩,
                  .response ⟨401, "Unauthorized", none⟩, .response ⟨401, "Unauthorized", none⟩]
      = .error .allFailed ∧
    CallError.allFailed ≠ CallError.fromResponse 401 "Unauthorized" :=
  ⟨rfl, by decide⟩

/-- The strategy loop returns the first accepted response unchanged,
whatever came before it and whatever the accumulator holds. -/
theorem callLoop_first_accepted (pre : List AttemptResult) (r : HttpResponse)
    (post : List AttemptResult) :
    ∀ last, (∀ a ∈ pre, isAccepted a = false) → acceptResponse r = true →
    callLoop (pre ++ .response r :: post) last = .ok r := by
  induction pre with
  | nil =>
    intro last hpre hr
    have h200 : r.status = 200 := by
      have hr2 := hr
      simp [acceptResponse] at hr2
      exact hr2.1.1
    have h5 : ¬ 500 ≤ r.status := by omega
    simp [callLoop, h5, hr]
  | cons a pre ih =>
    intro last hpre hr
    have ha : isAccepted a = false := hpre a (by simp)
    have hpre2 : ∀ x ∈ pre, isAccepted x = false := fun x hx => hpre x (by simp [hx])
    cases a with
    | netError m =>
      rw [List.cons_append]
      rw [show callLoop (AttemptResult.netError m :: (pre ++ .response r :: post)) last
            = callLoop (pre ++ .response r :: post) (some (.fromTransport m)) from rfl]
      exact ih _ hpre2 hr
    | response q =>
      rw [List.cons_append]
      rw [show callLoop (AttemptResult.response q :: (pre ++ .response r :: post)) last
            = if 500 ≤ q.status then
                callLoop (pre ++ .response r :: post) (some (.fromResponse q.status q.body))
              else if acceptResponse q then .ok q
              else callLoop (pre ++ .response r :: post) last from rfl]
      by_cases h5 : 500 ≤ q.status
      · rw [if_pos h5]; exact ih _ hpre2 hr
      · have hq : acceptResponse q = false := by simpa [isAccepted] using ha
        rw [if_neg h5, hq, if_neg (by simp)]
        exact ih _ hpre2 hr

/-- Claim C4 (amended): `callMachShip` tries the header sets in their
fixed priority order and returns, immediately and unchanged, the
response of the first strategy whose status is 200 and whose body is
non-empty (truthy) and does not contain the literal substring
"Session ID"; rejected earlier strategies produce no result.  (The
code's extra `response.data &&` conjunct means a 200 response with an
empty body is rejected rather than returned.) -/
theorem claim_C4_amended (pre post : List AttemptResult) (r : HttpResponse)
    (hpre : ∀ a ∈ pre, isAccepted a = false) (hr : acceptResponse r = true) :
    callMachShip (pre ++ .response r :: post) = .ok r :=
  callLoop_first_accepted pre r post none hpre hr

/-- Witness for C4: a rejected 401 followed by an accepted 200 returns
the 200 response unchanged, ignoring the later strategy. -/
theorem claim_C4_witness :
    callMachShip [.response ⟨401, "denied", none⟩, .response ⟨200, "routes ok", none⟩,
                  .response ⟨200, "later", none⟩]
      = .ok ⟨200, "routes ok", none⟩ :=
  claim_C4_amended [.response ⟨401, "denied", none⟩] [.response ⟨200, "later", none⟩]
    ⟨200, "routes ok", none⟩ (by decide) (by decide)

/-- Counterexample to C4 as stated: a single strategy answering 200
with an empty body satisfies the claim's acceptance condition (status
200, body does not contain "Session ID"), yet the code rejects it
because `response.data` is falsy, and the call fails instead of
returning that response. -/
theorem claim_C4_cex :
    callMachShip [.response ⟨200, "", none⟩] = .error .allFailed ∧
    (Except.error CallError.allFailed
      ≠ (Except.ok ⟨200, "", none⟩ : Except CallError HttpResponse)) :=
  ⟨rfl, fun h => Except.noConfusion h⟩

/-- Claim C2 (amended): the session cache is updated by the login
operation only.  `callMachShip` leaves the session slot unchanged for
every sequence of responses, whether or not they carry Set-Cookie; the
login operation, when the response carries a nonempty Set-Cookie list,
stores the cookies' name=value segments joined with "; " and an expiry
of 30 minutes from the time of storage. -/
theorem claim_C2_amended :
    (∀ (attempts : List AttemptResult) (s : SessionState),
      (callMachShipSession attempts s).2 = s) ∧
    (∀ (c : String) (cs : List String) (now : Nat) (s : SessionState),
      loginStoreSession (some (c :: cs)) now s
        = (⟨some (joinCookies (c :: cs)), some (now + sessionTTL)⟩, true)) := by
  refine ⟨fun _ _ => rfl, fun c cs now s => ?_⟩
  simp [loginStoreSession]

/-- Counterexample to C2 as stated: a successful `callMachShip` whose
response carries a Set-Cookie header leaves the session cache exactly
as it was (here: empty), even though the joined name=value segment
"sid=abc" was available to store. -/
theorem claim_C2_cex :
    (callMachShipSession [.response ⟨200, "routes body", some ["sid=abc; Path=/"]⟩]
        ⟨none, none⟩).2 = ⟨none, none⟩ ∧
    (callMachShipSession [.response ⟨200, "routes body", some ["sid=abc; Path=/"]⟩]
        ⟨none, none⟩).1 = .ok ⟨200, "routes body", some ["sid=abc; Path=/"]⟩ ∧
    joinCookies ["sid=abc; Path=/"] = "sid=abc" :=
  ⟨rfl, rfl, rfl⟩

/-- Claim C3 (amended): the handlers validate only the PRESENCE of the
request fields.  The quote handler makes the network call iff the
destination address object is present and the items list is present and
nonempty; the consignment handler iff the order number is truthy and
the destination address and items objects are present.  Individual
address fields (street, suburb, state, postcode) are never checked: a
destination address missing them still reaches the carrier API. -/
theorem claim_C3_amended (companyId : Int) (warehouse : Location)
    (qb : QuoteBody) (cb : ConsignmentBody) :
    (makesNetworkCall (getShippingQuote companyId warehouse qb) = true ↔
      qb.destination_address ≠ none ∧ ∃ its, qb.items = some its ∧ its ≠ []) ∧
    (makesNetworkCall (createConsignment companyId warehouse cb) = true ↔
      (∃ onum, cb.order_number = some onum ∧ onum ≠ "") ∧
        cb.destination_address ≠ none ∧ cb.items ≠ none) := by
  constructor
  · rcases qb with ⟨d, its, fa⟩
    cases d with
    | none => simp [getShippingQuote, makesNetworkCall]
    | some d =>
      cases its with
      | none => simp [getShippingQuote, makesNetworkCall]
      | some l =>
        cases l with
        | nil => simp [getShippingQuote, makesNetworkCall]
        | cons i is => simp [getShippingQuote, makesNetworkCall]
  · rcases cb with ⟨onum, d, its, fa, ce⟩
    cases onum with
    | none => simp [createConsignment, makesNetworkCall]
    | some s =>
      cases d with
      | none => simp [createConsignment, makesNetworkCall]
      | some d =>
        cases its with
        | none => simp [createConsignment, makesNetworkCall]
        | some l =>
          by_cases hs : s = "" <;>
            simp [createConsignment, makesNetworkCall, hs]

/-- Counterexample to C3 as stated: a quote request and a consignment
request whose destination address has no street (a required field) are
NOT rejected — both handlers proceed to the outbound carrier call. -/
theorem claim_C3_cex :
    makesNetworkCall (getShippingQuote 1
      ⟨"W", "C", none, none, none, none, "AU", "", ""⟩
      ⟨some ⟨some "Jane", none, none, some "Sydney", some "NSW", some "2000", none, none, none⟩,
        some [⟨some 1, none, none, none, none, none, none, none⟩], JSVal.undef⟩) = true ∧
    makesNetworkCall (createConsignment 1
      ⟨"W", "C", none, none, none, none, "AU", "", ""⟩
      ⟨some "SO-1",
        some ⟨some "Jane", none, none, some "Sydney", some "NSW", some "2000", none, none, none⟩,
        some [⟨some 1, none, none, none, none, none, none, none⟩], JSVal.undef, none⟩) = true :=
  ⟨rfl, rfl⟩

/-- Claim C10: the consignment handler's validation accepts an empty
items list (it only rejects an absent items field), so a zero-item
consignment proceeds to the outbound carrier call with an empty items
array — unlike the quote handler, which rejects an empty items list
with a client error before any network call. -/
theorem claim_C10 (companyId : Int) (warehouse : Location) (onum : String)
    (d : DestAddr) (fa : JSVal) (ce : Option String) (h : onum ≠ "") :
    createConsignment companyId warehouse ⟨some onum, some d, some [], fa, ce⟩
      = .ok { companyId := companyId
              fromLocation := warehouse
              toLocation := mapDestAddrCons d ce
              items := []
              dangerousGoods := true
              tailLiftRequired := tailLift fa
              customerReference := onum
              orderNumber := onum } ∧
    getShippingQuote companyId warehouse ⟨some d, some [], fa⟩
      = .error "Missing required fields: destination_address and items" :=
  ⟨by simp [createConsignment, h], rfl⟩

/-- Witness for C10: a concrete zero-item consignment request passes
validation and produces an outbound payload with an empty items array,
while the matching quote request is rejected. -/
theorem claim_C10_witness :
    createConsignment 1 ⟨"W", "C", none, none, none, none, "AU", "", ""⟩
        ⟨some "SO-1", some ⟨none, none, none, none, none, none, none, none, none⟩,
          some [], JSVal.undef, none⟩
      = .ok { companyId := 1
              fromLocation := ⟨"W", "C", none, none, none, none, "AU", "", ""⟩
              toLocation := mapDestAddrCons
                ⟨none, none, none, none, none, none, none, none, none⟩ none
              items := []
              dangerousGoods := true
              tailLiftRequired := tailLift JSVal.undef
              customerReference := "SO-1"
              orderNumber := "SO-1" } ∧
    getShippingQuote 1 ⟨"W", "C", none, none, none, none, "AU", "", ""⟩
        ⟨some ⟨none, none, none, none, none, none, none, none, none⟩, some [], JSVal.undef⟩
      = .error "Missing required fields: destination_address and items" :=
  claim_C10 1 ⟨"W", "C", none, none, none, none, "AU", "", ""⟩ "SO-1"
    ⟨none, none, none, none, none, none, none, none, none⟩ JSVal.undef none (by decide)

/-- The reduce result costs no more than the seed and no more than any
scanned element. -/
theorem reduceCheapest_le (first : RouteQuote) (rest : List RouteQuote) :
    (reduceCheapest first rest).totalCost ≤ first.totalCost ∧
    ∀ q ∈ rest, (reduceCheapest first rest).totalCost ≤ q.totalCost := by
  induction rest generalizing first with
  | nil => exact ⟨le_refl _, by simp⟩
  | cons c rs ih =>
    have hstep : reduceCheapest first (c :: rs)
        = reduceCheapest (if c.totalCost < first.totalCost then c else first) rs := by
      simp [reduceCheapest]
    obtain ⟨ih1, ih2⟩ := ih (if c.totalCost < first.totalCost then c else first)
    have hsf : (if c.totalCost < first.totalCost then c else first).totalCost
        ≤ first.totalCost := by
      split_ifs with hlt
      · exact le_of_lt hlt
      · exact le_refl _
    have hsc : (if c.totalCost < first.totalCost then c else first).totalCost
        ≤ c.totalCost := by
      split_ifs with hlt
      · exact le_refl _
      · exact le_of_not_lt hlt
    refine ⟨?_, ?_⟩
    · rw [hstep]; exact le_trans ih1 hsf
    · intro q hq
      rcases List.mem_cons.mp hq with rfl | hq
      · rw [hstep]; exact le_trans ih1 hsc
      · rw [hstep]; exact ih2 q hq

/-- The reduce result is the FIRST element attaining the minimal cost:
everything strictly before it in the scanned list costs strictly more
(the replacement test is a strict less-than). -/
theorem reduceCheapest_first_min (first : RouteQuote) (rest : List RouteQuote) :
    ∃ pre post, first :: rest = pre ++ reduceCheapest first rest :: post ∧
      ∀ q ∈ pre, (reduceCheapest first rest).totalCost < q.totalCost := by
  induction rest generalizing first with
  | nil => exact ⟨[], [], by simp [reduceCheapest], by simp⟩
  | cons c rs ih =>
    by_cases hlt : c.totalCost < first.totalCost
    · have hstep : reduceCheapest first (c :: rs) = reduceCheapest c rs := by
        simp [reduceCheapest, if_pos hlt]
      obtain ⟨pre, post, heq, hstrict⟩ := ih c
      refine ⟨first :: pre, post, ?_, ?_⟩
      · rw [hstep, List.cons_append, ← heq]
      · intro q hq
        rcases List.mem_cons.mp hq with rfl | hq
        · rw [hstep]
          exact lt_of_le_of_lt (reduceCheapest_le c rs).1 hlt
        · rw [hstep]; exact hstrict q hq
    · have hstep : reduceCheapest first (c :: rs) = reduceCheapest first rs := by
        simp [reduceCheapest, if_neg hlt]
      obtain ⟨pre, post, heq, hstrict⟩ := ih first
      cases pre with
      | nil =>
        have hm : reduceCheapest first rs = first := by
          have h2 := heq
          simp at h2
          exact h2.1.symm
        exact ⟨[], c :: rs, by rw [hstep, hm]; rfl, by simp⟩
      | cons p pre2 =>
        have h2 : first = p ∧ rs = pre2 ++ reduceCheapest first rs :: post := by
          simpa using heq
        obtain ⟨hp, hrs⟩ := h2
        refine ⟨first :: c :: pre2, post, ?_, ?_⟩
        · rw [hstep]
          simp only [List.cons_append]
          rw [← hrs]
        · have hmf : (reduceCheapest first rs).totalCost < first.totalCost := by
            have := hstrict p (by simp)
            rwa [← hp] at this
          intro q hq
          rcases List.mem_cons.mp hq with rfl | hq
          · rw [hstep]; exact hmf
          · rcases List.mem_cons.mp hq with rfl | hq
            · rw [hstep]
              exact lt_of_lt_of_le hmf (le_of_not_lt hlt)
            · rw [hstep]
              exact hstrict q (by simp [hq])

/-- Claim C5: for an empty route list the route selection fails with
the no-routes error before the reduce runs; for any nonempty list the
selected route costs no more than every listed route, and it is the
first occurrence of that minimal cost — everything before it in the
list costs strictly more (left-to-right scan with strict-less-than
replacement). -/
theorem claim_C5 :
    cheapestRoute ([] : List RouteQuote)
      = .error "No shipping routes available for this destination" ∧
    ∀ (r : RouteQuote) (rs : List RouteQuote),
      cheapestRoute (r :: rs) = .ok (reduceCheapest r rs) ∧
      (∀ q ∈ r :: rs, (reduceCheapest r rs).totalCost ≤ q.totalCost) ∧
      ∃ pre post, r :: rs = pre ++ reduceCheapest r rs :: post ∧
        ∀ q ∈ pre, (reduceCheapest r rs).totalCost < q.totalCost := by
  constructor
  · rfl
  · intro r rs
    refine ⟨rfl, ?_, reduceCheapest_first_min r rs⟩
    intro q hq
    rcases List.mem_cons.mp hq with h1 | hq
    · rw [h1]; exact (reduceCheapest_le r rs).1
    · exact (reduceCheapest_le r rs).2 q hq

/-- Claim C6 (amended): `tailLiftRequired` is true exactly when the
caller-supplied `forklift_available` is the boolean `false` or the
string `'no'`.  For boolean values — in particular everything the
webhook path produces — this coincides with logical negation, and an
order event with no matching forklift custom field yields
`forkliftAvailable = false`, hence `tailLiftRequired = true`.  For
other caller-supplied values (absent field, other strings, numbers) it
does NOT equal the JS logical negation. -/
theorem claim_C6_amended :
    (∀ b : Bool, tailLift (JSVal.bool b) = !b) ∧
    (∀ fields : List CustomField,
      (∀ f ∈ fields, f.customfield_id ≠ forkliftFieldId) →
      extractForkliftAvailable (some fields) = false ∧
      tailLift (JSVal.bool (extractForkliftAvailable (some fields))) = true) ∧
    (extractForkliftAvailable none = false ∧
      tailLift (JSVal.bool (extractForkliftAvailable none)) = true) := by
  refine ⟨?_, ?_, by decide⟩
  · intro b; cases b <;> rfl
  · intro fields h
    have hfind : fields.find? (fun f => f.customfield_id == forkliftFieldId) = none := by
      rw [List.find?_eq_none]
      intro x hx
      simp [h x hx]
    have hext : extractForkliftAvailable (some fields) = false := by
      rw [extractForkliftAvailable, hfind]
      simp
    exact ⟨hext, by rw [hext]; rfl⟩

/-- Witness for C6: an order event whose custom fields do not include
the forklift field id yields forkliftAvailable false and tail lift
required. -/
theorem claim_C6_witness :
    extractForkliftAvailable (some [⟨"0", "yes"⟩]) = false ∧
    tailLift (JSVal.bool (extractForkliftAvailable (some [⟨"0", "yes"⟩]))) = true :=
  claim_C6_amended.2.1 [⟨"0", "yes"⟩] (by decide)

/-- Counterexample to C6 as stated: when the caller omits
`forklift_available` the code computes `tailLiftRequired = false`, but
the logical negation of the absent (falsy) value is true — so the
outbound `tailLiftRequired` is not the negation of the supplied value. -/
theorem claim_C6_cex :
    tailLift JSVal.undef ≠ !(jsTruthy JSVal.undef) := by decide

/-- A `||`-defaulted numeric field is positive whenever the supplied
value is nonnegative and the default is positive. -/
theorem jsOrNum_pos {o : Option Int} {d : Int}
    (ho : ∀ n ∈ o, 0 ≤ n) (hd : 0 < d) : 0 < jsOrNum o d := by
  cases o with
  | none => simpa [jsOrNum] using hd
  | some n =>
    have hn : 0 ≤ n := ho n rfl
    by_cases h0 : n = 0
    · simpa [jsOrNum, h0] using hd
    · have hpos : 0 < n := lt_of_le_of_ne hn (Ne.symm h0)
      simpa [jsOrNum, h0] using hpos

/-- Claim C8 (amended): in the `||`-defaulting item mappings (server.js,
part_000, and part_001's quote endpoint), every dimensional field is
set — absent or falsy (0) inputs are replaced by the positive defaults
length=100, width=50, height=30, weight=25, quantity=1 — and all five
fields are positive whenever each supplied value is nonnegative;
truthy inputs are kept verbatim, so a negative supplied value survives
mapping and the unconditional positivity in the claim fails.  In
part_001's webhook consignment mapping the four dimensional fields are
the hard-coded positive constants (any supplied dimensions are
ignored), but `quantity` is copied verbatim with no default at all: an
absent quantity stays unset and a zero or negative one stays
non-positive. -/
theorem claim_C8_amended (it : InputItem)
    (hq : ∀ n ∈ it.quantity, 0 ≤ n) (hl : ∀ n ∈ it.length, 0 ≤ n)
    (hw : ∀ n ∈ it.width, 0 ≤ n) (hh : ∀ n ∈ it.height, 0 ≤ n)
    (hwt : ∀ n ∈ it.weight, 0 ≤ n) :
    (0 < (mapConsItem it).quantity ∧ 0 < (mapConsItem it).length ∧
      0 < (mapConsItem it).width ∧ 0 < (mapConsItem it).height ∧
      0 < (mapConsItem it).weight) ∧
    (0 < (mapQuoteItem it).quantity ∧ 0 < (mapQuoteItem it).length ∧
      0 < (mapQuoteItem it).width ∧ 0 < (mapQuoteItem it).height ∧
      0 < (mapQuoteItem it).weight) ∧
    (0 < (mapQuoteItemAlt it).quantity ∧ 0 < (mapQuoteItemAlt it).length ∧
      0 < (mapQuoteItemAlt it).width ∧ 0 < (mapQuoteItemAlt it).height ∧
      0 < (mapQuoteItemAlt it).weight) ∧
    (0 < (mapWebhookConsItemAlt it).length ∧ 0 < (mapWebhookConsItemAlt it).width ∧
      0 < (mapWebhookConsItemAlt it).height ∧ 0 < (mapWebhookConsItemAlt it).weight ∧
      (mapWebhookConsItemAlt it).quantity = it.quantity) :=
  ⟨⟨jsOrNum_pos hq (by norm_num), jsOrNum_pos hl (by norm_num),
    jsOrNum_pos hw (by norm_num), jsOrNum_pos hh (by norm_num),
    jsOrNum_pos hwt (by norm_num)⟩,
   ⟨jsOrNum_pos hq (by norm_num), jsOrNum_pos hl (by norm_num),
    jsOrNum_pos hw (by norm_num), jsOrNum_pos hh (by norm_num),
    jsOrNum_pos hwt (by norm_num)⟩,
   ⟨jsOrNum_pos hq (by norm_num), jsOrNum_pos hl (by norm_num),
    jsOrNum_pos hw (by norm_num), jsOrNum_pos hh (by norm_num),
    jsOrNum_pos hwt (by norm_num)⟩,
   ⟨by norm_num [mapWebhookConsItemAlt], by norm_num [mapWebhookConsItemAlt],
    by norm_num [mapWebhookConsItemAlt], by norm_num [mapWebhookConsItemAlt], rfl⟩⟩

/-- Witness for C8: a concrete item with a truthy quantity, an absent
length, a falsy (0) width and a truthy height maps to all-positive
dimensional fields in the defaulting mappings, while the webhook
mapping hard-codes the dimensions and copies the quantity verbatim. -/
theorem claim_C8_witness :
    (0 < (mapConsItem sampleItem).quantity ∧ 0 < (mapConsItem sampleItem).length ∧
      0 < (mapConsItem sampleItem).width ∧ 0 < (mapConsItem sampleItem).height ∧
      0 < (mapConsItem sampleItem).weight) ∧
    (0 < (mapQuoteItem sampleItem).quantity ∧ 0 < (mapQuoteItem sampleItem).length ∧
      0 < (mapQuoteItem sampleItem).width ∧ 0 < (mapQuoteItem sampleItem).height ∧
      0 < (mapQuoteItem sampleItem).weight) ∧
    (0 < (mapQuoteItemAlt sampleItem).quantity ∧ 0 < (mapQuoteItemAlt sampleItem).length ∧
      0 < (mapQuoteItemAlt sampleItem).width ∧ 0 < (mapQuoteItemAlt sampleItem).height ∧
      0 < (mapQuoteItemAlt sampleItem).weight) ∧
    (0 < (mapWebhookConsItemAlt sampleItem).length ∧
      0 < (mapWebhookConsItemAlt sampleItem).width ∧
      0 < (mapWebhookConsItemAlt sampleItem).height ∧
      0 < (mapWebhookConsItemAlt sampleItem).weight ∧
      (mapWebhookConsItemAlt sampleItem).quantity = sampleItem.quantity) :=
  claim_C8_amended sampleItem
    (by intro n hn; simp [sampleItem] at hn; omega)
    (by intro n hn; simp [sampleItem] at hn)
    (by intro n hn; simp [sampleItem] at hn; omega)
    (by intro n hn; simp [sampleItem] at hn; omega)
    (by intro n hn; simp [sampleItem] at hn)

/-- Counterexample to C8 as stated: in the defaulting mappings a
supplied negative length is truthy, so the `||` default does not
replace it and the mapped length is negative, not positive; and in
part_001's webhook consignment mapping the quantity has no default at
all — a falsy (0) quantity is NOT replaced by 1 and is not positive,
and an absent quantity leaves the outbound field unset. -/
theorem claim_C8_cex :
    ((mapConsItem ⟨some 2, some (-1), none, none, none, none, none, none⟩).length = -1 ∧
      ¬ (0 < (mapConsItem ⟨some 2, some (-1), none, none, none, none, none, none⟩).length)) ∧
    ((mapWebhookConsItemAlt ⟨some 0, none, none, none, none, none, none, none⟩).quantity
        = some 0 ∧
      ¬ (∃ n, (mapWebhookConsItemAlt ⟨some 0, none, none, none, none, none, none, none⟩).quantity
            = some n ∧ 0 < n)) ∧
    (mapWebhookConsItemAlt ⟨none, none, none, none, none, none, none, none⟩).quantity
      = none := by
  refine ⟨by decide, ⟨rfl, ?_⟩, rfl⟩
  rintro ⟨n, hn, hpos⟩
  have : n = 0 := by
    have h0 : (mapWebhookConsItemAlt
        ⟨some 0, none, none, none, none, none, none, none⟩).quantity = some 0 := rfl
    rw [h0] at hn
    exact (Option.some.injEq _ _ ▸ hn).symm
  omega

/-- Claim C9 (amended): the quote and consignment mappings of
src/server.js and src/unnamed/part_000 set `itemDescription` to the
item's description when present, otherwise the item's name when
present, otherwise the literal "Battery".  The quote mapping of
src/unnamed/part_001 skips the name fallback: its result equals the
claimed chain applied to the item with the name removed (description
when present, otherwise "Battery"). -/
theorem claim_C9_amended (it : InputItem) :
    (mapQuoteItem it).itemDescription = claimedDescription it ∧
    (mapConsItem it).itemDescription = claimedDescription it ∧
    (mapQuoteItemAlt it).itemDescription = claimedDescription { it with name := none } := by
  rcases it with ⟨q, l, w, ht, wt, d, n, sk⟩
  refine ⟨?_, ?_, ?_⟩ <;>
    cases d <;> cases n <;>
      simp [mapQuoteItem, mapConsItem, mapQuoteItemAlt, claimedDescription, jsOr]

/-- Counterexample to C9 as stated: an item with no description and
name "Solar Panel" maps, in the part_001 quote mapping, to the literal
"Battery" instead of the claimed name fallback. -/
theorem claim_C9_cex :
    (mapQuoteItemAlt ⟨some 1, none, none, none, none, none, some "Solar Panel", none⟩).itemDescription
      = "Battery" ∧
    claimedDescription ⟨some 1, none, none, none, none, none, some "Solar Panel", none⟩
      = "Solar Panel" ∧
    (mapQuoteItemAlt ⟨some 1, none, none, none, none, none, some "Solar Panel", none⟩).itemDescription
      ≠ claimedDescription ⟨some 1, none, none, none, none, none, some "Solar Panel", none⟩ := by
  refine ⟨rfl, rfl, ?_⟩
  decide

/-- Prepending the same list to both sides preserves the prefix test. -/
theorem isPrefixOf_append_same (p a b : List Char) :
    (p ++ a).isPrefixOf (p ++ b) = a.isPrefixOf b := by
  induction p with
  | nil => rfl
  | cons c p ih => simp [List.isPrefixOf, ih]

/-- Transitivity of the boolean prefix test. -/
theorem isPrefixOf_trans : ∀ {l1 l2 l3 : List Char},
    l1.isPrefixOf l2 = true → l2.isPrefixOf l3 = true → l1.isPrefixOf l3 = true := by
  intro l1
  induction l1 with
  | nil =>
    intro l2 l3 h1 h2
    cases l3 <;> rfl
  | cons a as ih =>
    intro l2 l3 h1 h2
    cases l2 with
    | nil => exact Bool.noConfusion h1
    | cons b bs =>
      cases l3 with
      | nil => exact Bool.noConfusion h2
      | cons c cs =>
        have e1 : (a :: as).isPrefixOf (b :: bs) = (a == b && as.isPrefixOf bs) := rfl
        have e2 : (b :: bs).isPrefixOf (c :: cs) = (b == c && bs.isPrefixOf cs) := rfl
        have e3 : (a :: as).isPrefixOf (c :: cs) = (a == c && as.isPrefixOf cs) := rfl
        rw [e1, Bool.and_eq_true] at h1
        rw [e2, Bool.and_eq_true] at h2
        rw [e3, Bool.and_eq_true]
        refine ⟨?_, ih h1.2 h2.2⟩
        have hab : a = b := by simpa using h1.1
        have hbc : b = c := by simpa using h2.1
        simp [hab, hbc]

/-- "Bearer Bearer" never begins a list whose head is not 'B'. -/
theorem bearer_bearer_head (c : Char) (hc : (c == 'B') = false) (l : List Char) :
    "Bearer Bearer".data.isPrefixOf (c :: l) = false := by
  have hd : "Bearer Bearer".data
      = 'B' :: 'e' :: 'a' :: 'r' :: 'e' :: 'r' :: ' ' :: 'B' :: 'e' :: 'a' :: 'r' :: 'e' :: 'r' :: [] := rfl
  rw [hd]
  simp [List.isPrefixOf]
  intro h
  rw [h] at hc
  simp at hc

/-- Claim C7 (amended): the negotiating variant strips exactly ONE
leading "Bearer "-prefix from the trimmed raw token, case-insensitively
(the single-call variant strips one case-SENSITIVE literal occurrence
instead).  Consequently, whenever the cleaned token does not itself
begin with the literal "Bearer", none of the four produced header
values begins with a doubled "Bearer Bearer" prefix. -/
theorem claim_C7_amended (raw : String)
    (h : "Bearer".data.isPrefixOf (cleanTokenNegotiator raw).data = false) :
    ∀ st ∈ authStrategies (cleanTokenNegotiator raw), ∀ p ∈ st.headers,
      "Bearer Bearer".data.isPrefixOf p.2.data = false := by
  intro st hst p hp
  have hbear : ∀ t : String, "Bearer".data.isPrefixOf t.data = false →
      "Bearer Bearer".data.isPrefixOf ("Bearer " ++ t).data = false := by
    intro t ht
    rw [String.data_append]
    have hsplit : "Bearer Bearer".data = "Bearer ".data ++ "Bearer".data := rfl
    rw [hsplit, isPrefixOf_append_same]
    exact ht
  have hbare : ∀ t : String, "Bearer".data.isPrefixOf t.data = false →
      "Bearer Bearer".data.isPrefixOf t.data = false := by
    intro t ht
    cases hq : "Bearer Bearer".data.isPrefixOf t.data with
    | false => rfl
    | true =>
      have hpref : "Bearer".data.isPrefixOf "Bearer Bearer".data = true := by decide
      have := isPrefixOf_trans hpref hq
      rw [ht] at this
      exact Bool.noConfusion this
  have htok : ∀ t : String,
      "Bearer Bearer".data.isPrefixOf ("Token " ++ t).data = false := by
    intro t
    rw [String.data_append]
    have hT : "Token ".data = 'T' :: "oken ".data := rfl
    rw [hT, List.cons_append]
    exact bearer_bearer_head 'T' (by decide) _
  simp [authStrategies] at hst
  rcases hst with h1 | h1 | h1 | h1 <;> rw [h1] at hp <;> simp at hp <;>
    rcases hp with h2 | h2 | h2 <;> rw [h2] <;>
      first
        | exact hbear _ h
        | exact hbare _ h
        | exact htok _

/-- Witness for C7: a raw token already carrying one "Bearer " prefix
is cleaned to "tok" and the produced Authorization value
"Bearer tok" does not begin with "Bearer Bearer". -/
theorem claim_C7_witness :
    "Bearer Bearer".data.isPrefixOf ("Bearer tok" : String).data = false :=
  claim_C7_amended "Bearer tok" (by decide)
    ⟨"Bearer Token",
      [("Authorization", "Bearer tok"),
       ("Content-Type", "application/json"),
       ("Accept", "application/json")]⟩ (by decide)
    ("Authorization", "Bearer tok") (by decide)

/-- Counterexample to C7 as stated: the single-call variant's strip is
case-SENSITIVE, so a lowercase "bearer " prefix survives, and in the
negotiating variant the regex strips only ONE prefix, so a raw token
"Bearer Bearer tok" produces the Authorization value
"Bearer Bearer tok", which begins with the doubled prefix. -/
theorem claim_C7_cex :
    cleanTokenSingle "bearer tok" = "bearer tok" ∧
    (∃ st ∈ authStrategies (cleanTokenNegotiator "Bearer Bearer tok"),
      ∃ p ∈ st.headers, "Bearer Bearer".data.isPrefixOf p.2.data = true) := by
  constructor
  · decide
  · decide

end MachshipMW
